import Mathlib

/-!
Verification of the Health Metrics Analysis Engine of the PCOD repository
(src/app.py and src/app2.py), as a shallow embedding in Lean 4.

The repository is a pandas/Streamlit dashboard.  The analysis core operates
on a data frame whose validated rows have six numeric fields.  We embed a
validated row as `HealthRecord` with rational fields (pandas stores the
columns as int64/float64; exact rationals model the numeric values, and
degenerate float results such as NaN or a raised ZeroDivisionError are made
explicit with `Option`/`Except`).  A `Dataset` is the ordered list of rows,
matching the row order of the data frame.
-/

structure HealthRecord where
  thermoregulation : ℚ
  heartRateVariation : ℚ
  bloodOxygen : ℚ
  activityLevel : ℚ
  sleepPatterns : ℚ
  hormoneImbalance : ℚ
deriving DecidableEq, Repr

abbrev Dataset := List HealthRecord

/-- Number of rows of `df[mask]` for a row predicate: pandas boolean selection
keeps exactly the rows satisfying the predicate, so its length is a count. -/
def countB (p : HealthRecord → Bool) (ds : Dataset) : ℕ :=
  (ds.filter p).length

/-- Python division `a / b`: raises `ZeroDivisionError` when `b = 0`, which we
model as `none`. -/
def pyDiv (a b : ℚ) : Option ℚ :=
  if b = 0 then none else some (a / b)

/-! ### Normal-range percentages (app.py lines 293-334, app2.py lines 348-362)

`temp_pct = (len(temp_normal) / len(df)) * 100` and the three analogous
ratios.  The division is plain Python division of ints, so an empty data
frame raises `ZeroDivisionError`. -/

def temp_normal_count (ds : Dataset) : ℕ :=
  countB (fun r => decide (36.1 ≤ r.thermoregulation) && decide (r.thermoregulation ≤ 37.2)) ds

def temp_pct (ds : Dataset) : Option ℚ :=
  (pyDiv (temp_normal_count ds) ds.length).map (· * 100)

def hr_normal_count (ds : Dataset) : ℕ :=
  countB (fun r => decide (60 ≤ r.heartRateVariation) && decide (r.heartRateVariation ≤ 100)) ds

def hr_pct (ds : Dataset) : Option ℚ :=
  (pyDiv (hr_normal_count ds) ds.length).map (· * 100)

def oxygen_normal_count (ds : Dataset) : ℕ :=
  countB (fun r => decide (95 ≤ r.bloodOxygen)) ds

def oxygen_pct (ds : Dataset) : Option ℚ :=
  (pyDiv (oxygen_normal_count ds) ds.length).map (· * 100)

def sleep_good_count (ds : Dataset) : ℕ :=
  countB (fun r => decide (7 ≤ r.sleepPatterns)) ds

def sleep_pct (ds : Dataset) : Option ℚ :=
  (pyDiv (sleep_good_count ds) ds.length).map (· * 100)

/-! ### Threshold alerts (app.py lines 340-379, app2.py lines 367-388)

The source builds the list `alerts` by seven sequential conditional appends,
one per clinical condition, each guarded by `len(df[cond]) > 0`, then shows
the findings if the list is nonempty and a single "all normal" success
message otherwise. -/

structure AlertFinding where
  count : ℕ
  message : String
deriving DecidableEq, Repr

def temp_high_count (ds : Dataset) : ℕ :=
  countB (fun r => decide (37.5 < r.thermoregulation)) ds

def temp_low_count (ds : Dataset) : ℕ :=
  countB (fun r => decide (r.thermoregulation < 36.0)) ds

def hr_high_count (ds : Dataset) : ℕ :=
  countB (fun r => decide (100 < r.heartRateVariation)) ds

def hr_low_count (ds : Dataset) : ℕ :=
  countB (fun r => decide (r.heartRateVariation < 60)) ds

def oxygen_low_count (ds : Dataset) : ℕ :=
  countB (fun r => decide (r.bloodOxygen < 95)) ds

def sleep_poor_count (ds : Dataset) : ℕ :=
  countB (fun r => decide (r.sleepPatterns < 6)) ds

def hormone_issues_count (ds : Dataset) : ℕ :=
  countB (fun r => decide (r.hormoneImbalance = 1)) ds

/-- The alert list built exactly as in the source: seven sequential
conditional appends in the fixed textual order. -/
def alerts (ds : Dataset) : List AlertFinding :=
  let a0 : List AlertFinding := []
  let a1 := if 0 < temp_high_count ds then
    a0 ++ [⟨temp_high_count ds, "elevated temperature (>37.5°C)"⟩] else a0
  let a2 := if 0 < temp_low_count ds then
    a1 ++ [⟨temp_low_count ds, "low temperature (<36.0°C)"⟩] else a1
  let a3 := if 0 < hr_high_count ds then
    a2 ++ [⟨hr_high_count ds, "high heart rate (>100 bpm)"⟩] else a2
  let a4 := if 0 < hr_low_count ds then
    a3 ++ [⟨hr_low_count ds, "low heart rate (<60 bpm)"⟩] else a3
  let a5 := if 0 < oxygen_low_count ds then
    a4 ++ [⟨oxygen_low_count ds, "low oxygen (<95%)"⟩] else a4
  let a6 := if 0 < sleep_poor_count ds then
    a5 ++ [⟨sleep_poor_count ds, "insufficient sleep (<6 hours)"⟩] else a5
  let a7 := if 0 < hormone_issues_count ds then
    a6 ++ [⟨hormone_issues_count ds, "hormone imbalance"⟩] else a6
  a7

/-- What the alerts panel renders: the findings when `alerts` is nonempty,
otherwise the single success message (`st.success(...)`). -/
inductive AlertDisplay where
  | allNormal : AlertDisplay
  | findings : List AlertFinding → AlertDisplay
deriving DecidableEq, Repr

def alertDisplay (ds : Dataset) : AlertDisplay :=
  if alerts ds = [] then .allNormal else .findings (alerts ds)

/-- The spec's fixed table of the seven conditions, in the spec's order:
message together with the row predicate counted over the whole Dataset. -/
def conditionTable : List (String × (HealthRecord → Bool)) :=
  [("elevated temperature (>37.5°C)", fun r => decide (37.5 < r.thermoregulation)),
   ("low temperature (<36.0°C)", fun r => decide (r.thermoregulation < 36.0)),
   ("high heart rate (>100 bpm)", fun r => decide (100 < r.heartRateVariation)),
   ("low heart rate (<60 bpm)", fun r => decide (r.heartRateVariation < 60)),
   ("low oxygen (<95%)", fun r => decide (r.bloodOxygen < 95)),
   ("insufficient sleep (<6 hours)", fun r => decide (r.sleepPatterns < 6)),
   ("hormone imbalance", fun r => decide (r.hormoneImbalance = 1))]

/-- Spec-side description of the engine: map each condition to its
Dataset-wide count, keep exactly the conditions with positive count, in
table order. -/
def alertsSpec (ds : Dataset) : List AlertFinding :=
  (conditionTable.map (fun c => AlertFinding.mk (countB c.2 ds) c.1)).filter
    (fun a => decide (0 < a.count))

/-! ### Filter engine (app.py lines 458-463, app2.py lines 422-427)

`filtered_df = df[(df['ActivityLevel'].isin(activity_filter)) &
(df['HormoneImbalance'].isin(hormone_filter)) &
(df['Thermoregulation'] >= temp_range[0]) &
(df['Thermoregulation'] <= temp_range[1])]`: four boolean masks combined
with `&` and applied by boolean row selection. -/

structure FilterSpec where
  activity_allowed : List ℚ
  hormone_allowed : List ℚ
  temp_lo : ℚ
  temp_hi : ℚ
deriving DecidableEq, Repr

def maskActivity (ds : Dataset) (s : FilterSpec) : List Bool :=
  ds.map (fun r => decide (r.activityLevel ∈ s.activity_allowed))

def maskHormone (ds : Dataset) (s : FilterSpec) : List Bool :=
  ds.map (fun r => decide (r.hormoneImbalance ∈ s.hormone_allowed))

def maskTempLo (ds : Dataset) (s : FilterSpec) : List Bool :=
  ds.map (fun r => decide (s.temp_lo ≤ r.thermoregulation))

def maskTempHi (ds : Dataset) (s : FilterSpec) : List Bool :=
  ds.map (fun r => decide (r.thermoregulation ≤ s.temp_hi))

/-- Pandas elementwise `&` of two boolean masks. -/
def andMask (m1 m2 : List Bool) : List Bool :=
  List.zipWith and m1 m2

/-- Pandas boolean row selection `df[mask]`: keep the rows whose mask entry
is `true`, in order. -/
def selectByMask : Dataset → List Bool → Dataset
  | [], _ => []
  | _ :: _, [] => []
  | r :: rs, b :: bs => if b then r :: selectByMask rs bs else selectByMask rs bs

def filtered_df (ds : Dataset) (s : FilterSpec) : Dataset :=
  selectByMask ds
    (andMask (andMask (andMask (maskActivity ds s) (maskHormone ds s)) (maskTempLo ds s))
      (maskTempHi ds s))

/-- The conjunction of the three predicates of the spec (the numeric range
contributes two comparisons), as a single row predicate. -/
def filterPred (s : FilterSpec) (r : HealthRecord) : Bool :=
  (decide (r.activityLevel ∈ s.activity_allowed) && decide (r.hormoneImbalance ∈ s.hormone_allowed))
    && decide (s.temp_lo ≤ r.thermoregulation) && decide (r.thermoregulation ≤ s.temp_hi)

/-- The all-permissive spec the UI defaults to: the activity values occurring
in the data (`sorted(df['ActivityLevel'].unique())`), hormone statuses `[0,1]`,
and the full observed temperature range. -/
def occurringActivities (ds : Dataset) : List ℚ :=
  (ds.map (·.activityLevel)).dedup

def colMin (l : List ℚ) : ℚ :=
  match l with
  | [] => 0
  | x :: xs => xs.foldl min x

def colMax (l : List ℚ) : ℚ :=
  match l with
  | [] => 0
  | x :: xs => xs.foldl max x

def allPermissiveSpec (ds : Dataset) : FilterSpec :=
  ⟨occurringActivities ds, [0, 1],
    colMin (ds.map (·.thermoregulation)), colMax (ds.map (·.thermoregulation))⟩

/-! ### Helper lemmas for the filter engine -/

lemma selectByMask_map (ds : Dataset) (p : HealthRecord → Bool) :
    selectByMask ds (ds.map p) = ds.filter p := by
  induction ds with
  | nil => rfl
  | cons r rs ih =>
      by_cases h : p r <;> simp [selectByMask, List.filter_cons, h, ih]

lemma andMask_map (ds : Dataset) (p q : HealthRecord → Bool) :
    andMask (ds.map p) (ds.map q) = ds.map (fun r => p r && q r) := by
  induction ds with
  | nil => rfl
  | cons r rs ih => simp [andMask, List.zipWith, ih]

/-- The source's mask pipeline is extensionally the list filter by the
conjunction of the three predicates. -/
lemma filtered_df_eq_filter (ds : Dataset) (s : FilterSpec) :
    filtered_df ds s = ds.filter (filterPred s) := by
  unfold filtered_df maskActivity maskHormone maskTempLo maskTempHi
  rw [andMask_map, andMask_map, andMask_map, selectByMask_map]
  rfl

lemma foldl_min_le_init (xs : List ℚ) (a : ℚ) : xs.foldl min a ≤ a := by
  induction xs generalizing a with
  | nil => exact le_refl a
  | cons x xs ih => exact le_trans (ih (min a x)) (min_le_left a x)

lemma foldl_min_le_mem (xs : List ℚ) (a y : ℚ) (hy : y ∈ xs) : xs.foldl min a ≤ y := by
  induction xs generalizing a with
  | nil => cases hy
  | cons x xs ih =>
      rcases List.mem_cons.mp hy with h | h
      · subst h
        exact le_trans (foldl_min_le_init xs (min a y)) (min_le_right a y)
      · exact ih (min a x) h

lemma init_le_foldl_max (xs : List ℚ) (a : ℚ) : a ≤ xs.foldl max a := by
  induction xs generalizing a with
  | nil => exact le_refl a
  | cons x xs ih => exact le_trans (le_max_left a x) (ih (max a x))

lemma mem_le_foldl_max (xs : List ℚ) (a y : ℚ) (hy : y ∈ xs) : y ≤ xs.foldl max a := by
  induction xs generalizing a with
  | nil => cases hy
  | cons x xs ih =>
      rcases List.mem_cons.mp hy with h | h
      · subst h
        exact le_trans (le_max_right a y) (init_le_foldl_max xs (max a y))
      · exact ih (max a x) h

lemma colMin_le_mem (l : List ℚ) (y : ℚ) (hy : y ∈ l) : colMin l ≤ y := by
  cases l with
  | nil => cases hy
  | cons x xs =>
      rcases List.mem_cons.mp hy with h | h
      · subst h; exact foldl_min_le_init xs y
      · exact foldl_min_le_mem xs x y h

lemma mem_le_colMax (l : List ℚ) (y : ℚ) (hy : y ∈ l) : y ≤ colMax l := by
  cases l with
  | nil => cases hy
  | cons x xs =>
      rcases List.mem_cons.mp hy with h | h
      · subst h; exact init_le_foldl_max xs y
      · exact mem_le_foldl_max xs x y h

/-- The spec's worked example Dataset (section 8 of the spec, also the
sample-data block of both dashboards). -/
def sampleDataset : Dataset :=
  [⟨36.65, 77.82, 100.47, 0, 3.05, 1⟩,
   ⟨36.01, 60.88, 97.77, 4, 5.67, 0⟩,
   ⟨36.57, 69.80, 97.22, 0, 7.75, 0⟩]

/-- C1 (counterexample): on the empty Dataset every one of the four
normal-range percentage computations raises ZeroDivisionError (modelled as
`none`), so the claim that the percentage "is reported as an explicit
undefined result" and "never raises (e.g., no division-by-zero fault)" is
false on the code: the division `len(...)/len(df)` faults. -/
theorem pct_empty_counterexample :
    temp_pct [] = none ∧ hr_pct [] = none ∧ oxygen_pct [] = none ∧ sleep_pct [] = none :=
  ⟨rfl, rfl, rfl, rfl⟩

/-- C1 (amended): on an empty Dataset each of the four normal-range
percentage computations raises ZeroDivisionError (caught only by the
enclosing generic `except Exception` handler); in particular none of them
ever reports 0%. -/
theorem pct_empty_raises (ds : Dataset) (h : ds = []) :
    (temp_pct ds = none ∧ hr_pct ds = none ∧ oxygen_pct ds = none ∧ sleep_pct ds = none)
      ∧ temp_pct ds ≠ some 0 ∧ hr_pct ds ≠ some 0
      ∧ oxygen_pct ds ≠ some 0 ∧ sleep_pct ds ≠ some 0 := by
  subst h
  refine ⟨⟨rfl, rfl, rfl, rfl⟩, ?_, ?_, ?_, ?_⟩ <;> simp [temp_pct, hr_pct, oxygen_pct, sleep_pct, pyDiv]

/-- C1 witness: the amended theorem applied at the concrete empty Dataset. -/
theorem pct_empty_raises_witness :
    temp_pct [] = none ∧ temp_pct [] ≠ some 0 :=
  ⟨(pct_empty_raises [] rfl).1.1, (pct_empty_raises [] rfl).2.1⟩

lemma build_step (a : List AlertFinding) (n : ℕ) (m : String) :
    (if 0 < n then a ++ [AlertFinding.mk n m] else a)
      = a ++ List.filter (fun x => decide (0 < x.count)) [AlertFinding.mk n m] := by
  by_cases h : 0 < n <;> simp [h]

lemma filter_cons_append (p : AlertFinding → Bool) (x y : AlertFinding)
    (ys : List AlertFinding) :
    List.filter p (x :: y :: ys) = List.filter p [x] ++ List.filter p (y :: ys) := by
  by_cases h : p x <;> simp [List.filter_cons, h]

lemma alerts_build_key (n1 n2 n3 n4 n5 n6 n7 : ℕ) :
    (let a0 : List AlertFinding := []
     let a1 := if 0 < n1 then a0 ++ [⟨n1, "elevated temperature (>37.5°C)"⟩] else a0
     let a2 := if 0 < n2 then a1 ++ [⟨n2, "low temperature (<36.0°C)"⟩] else a1
     let a3 := if 0 < n3 then a2 ++ [⟨n3, "high heart rate (>100 bpm)"⟩] else a2
     let a4 := if 0 < n4 then a3 ++ [⟨n4, "low heart rate (<60 bpm)"⟩] else a3
     let a5 := if 0 < n5 then a4 ++ [⟨n5, "low oxygen (<95%)"⟩] else a4
     let a6 := if 0 < n6 then a5 ++ [⟨n6, "insufficient sleep (<6 hours)"⟩] else a5
     let a7 := if 0 < n7 then a6 ++ [⟨n7, "hormone imbalance"⟩] else a6
     a7) =
    List.filter (fun x => decide (0 < x.count))
      [⟨n1, "elevated temperature (>37.5°C)"⟩, ⟨n2, "low temperature (<36.0°C)"⟩,
       ⟨n3, "high heart rate (>100 bpm)"⟩, ⟨n4, "low heart rate (<60 bpm)"⟩,
       ⟨n5, "low oxygen (<95%)"⟩, ⟨n6, "insufficient sleep (<6 hours)"⟩,
       ⟨n7, "hormone imbalance"⟩] := by
  show (if 0 < n7 then _ ++ [AlertFinding.mk n7 "hormone imbalance"] else _) = _
  rw [build_step, build_step, build_step, build_step, build_step, build_step, build_step,
    filter_cons_append, filter_cons_append, filter_cons_append, filter_cons_append,
    filter_cons_append, filter_cons_append]
  simp [List.append_assoc]

/-- C3: the alert engine emits, in the fixed table order
(temperature-high, temperature-low, heart-rate-high, heart-rate-low,
oxygen-low, sleep-low, hormone-imbalance), exactly the conditions whose
Dataset-wide count is positive; on an empty Dataset, or when no condition
matches, it emits no findings and the panel shows the single all-normal
signal; when findings exist the panel shows exactly them. -/
theorem alerts_conform (ds : Dataset) :
    alerts ds = alertsSpec ds
      ∧ (ds = [] → alerts ds = [] ∧ alertDisplay ds = .allNormal)
      ∧ ((temp_high_count ds = 0 ∧ temp_low_count ds = 0 ∧ hr_high_count ds = 0
          ∧ hr_low_count ds = 0 ∧ oxygen_low_count ds = 0 ∧ sleep_poor_count ds = 0
          ∧ hormone_issues_count ds = 0) → alerts ds = [] ∧ alertDisplay ds = .allNormal)
      ∧ (alerts ds ≠ [] → alertDisplay ds = .findings (alerts ds)) := by
  have hspec : alerts ds = alertsSpec ds := by
    unfold alerts alertsSpec conditionTable
    simp only [List.map_cons, List.map_nil]
    exact alerts_build_key (temp_high_count ds) (temp_low_count ds) (hr_high_count ds)
      (hr_low_count ds) (oxygen_low_count ds) (sleep_poor_count ds) (hormone_issues_count ds)
  refine ⟨hspec, ?_, ?_, ?_⟩
  · rintro rfl
    exact ⟨rfl, rfl⟩
  · rintro ⟨h1, h2, h3, h4, h5, h6, h7⟩
    have hnil : alerts ds = [] := by
      unfold alerts
      simp [h1, h2, h3, h4, h5, h6, h7]
    exact ⟨hnil, by simp [alertDisplay, hnil]⟩
  · intro hne
    simp [alertDisplay, hne]

/-- C3 witness: the theorem applied at the empty Dataset. -/
theorem alerts_conform_witness :
    alerts [] = [] ∧ alertDisplay [] = .allNormal :=
  (alerts_conform []).2.1 rfl

/-- C5: the mask-based filter returns exactly the records satisfying the
conjunction of the three predicates (`List.filter` by the conjunction),
hence a sublist of the source in the original relative order, and an empty
allowed-set for either categorical predicate yields the empty result. -/
theorem filtered_df_exact (ds : Dataset) (s : FilterSpec) :
    filtered_df ds s = ds.filter (filterPred s)
      ∧ List.Sublist (filtered_df ds s) ds
      ∧ (s.activity_allowed = [] → filtered_df ds s = [])
      ∧ (s.hormone_allowed = [] → filtered_df ds s = []) := by
  refine ⟨filtered_df_eq_filter ds s, ?_, ?_, ?_⟩
  · rw [filtered_df_eq_filter]
    exact List.filter_sublist ds
  · intro h
    rw [filtered_df_eq_filter]
    simp [filterPred, h]
  · intro h
    rw [filtered_df_eq_filter]
    simp [filterPred, h]

/-- C5 witness: with an empty allowed activity set, filtering the sample
Dataset yields the empty result. -/
theorem filtered_df_exact_witness :
    filtered_df sampleDataset ⟨[], [0, 1], 0, 100⟩ = [] :=
  (filtered_df_exact sampleDataset ⟨[], [0, 1], 0, 100⟩).2.2.1 rfl

/-- C6: filtering is idempotent: re-filtering the filtered Dataset with the
same predicate specification returns it unchanged. -/
theorem filtered_df_idempotent (ds : Dataset) (s : FilterSpec) :
    filtered_df (filtered_df ds s) s = filtered_df ds s := by
  rw [filtered_df_eq_filter, filtered_df_eq_filter, List.filter_filter]
  simp only [Bool.and_self]

/-- C10: the heart-rate classifications partition the Dataset: the count of
records in the normal range 60-100 plus the high-heart-rate count (>100)
plus the low-heart-rate count (<60) equals the number of records. -/
theorem hr_counts_partition (ds : Dataset) :
    hr_normal_count ds + hr_high_count ds + hr_low_count ds = ds.length := by
  induction ds with
  | nil => rfl
  | cons r rs ih =>
      simp only [hr_normal_count, hr_high_count, hr_low_count, countB, List.filter_cons]
        at ih ⊢
      by_cases h1 : r.heartRateVariation < 60
      · have h2 : ¬ (60 ≤ r.heartRateVariation) := not_le.mpr h1
        have h3 : ¬ (100 < r.heartRateVariation) := by linarith
        simp [h1, h2, h3]
        omega
      · by_cases h2 : r.heartRateVariation ≤ 100
        · have h3 : (60:ℚ) ≤ r.heartRateVariation := not_lt.mp h1
          have h4 : ¬ (100 < r.heartRateVariation) := not_lt.mpr h2
          simp [h1, h2, h3, h4]
          omega
        · have h3 : (100:ℚ) < r.heartRateVariation := not_le.mp h2
          simp [h1, h2, h3]
          omega

/-- C9: the all-permissive predicate specification (the UI defaults:
activity set = values occurring in the data, hormone set = {0,1}, and the
full observed temperature range) is an identity for the filter on any
non-empty Dataset whose hormone values lie in {0,1}. -/
theorem filtered_df_all_permissive (ds : Dataset) (hne : ds ≠ [])
    (hh : ∀ r ∈ ds, r.hormoneImbalance = 0 ∨ r.hormoneImbalance = 1) :
    filtered_df ds (allPermissiveSpec ds) = ds := by
  rw [filtered_df_eq_filter]
  apply List.filter_eq_self.mpr
  intro r hr
  have hact : r.activityLevel ∈ occurringActivities ds := by
    unfold occurringActivities
    exact List.mem_dedup.mpr (List.mem_map_of_mem _ hr)
  have htlo : colMin (ds.map (·.thermoregulation)) ≤ r.thermoregulation :=
    colMin_le_mem _ _ (List.mem_map_of_mem _ hr)
  have hthi : r.thermoregulation ≤ colMax (ds.map (·.thermoregulation)) :=
    mem_le_colMax _ _ (List.mem_map_of_mem _ hr)
  have hhr : r.hormoneImbalance ∈ ([0, 1] : List ℚ) := by
    rcases hh r hr with h | h <;> simp [h]
  simp [filterPred, allPermissiveSpec, hact, htlo, hthi, hhr]

/-- C9 witness: the theorem applied at the sample Dataset. -/
theorem filtered_df_all_permissive_witness :
    filtered_df sampleDataset (allPermissiveSpec sampleDataset) = sampleDataset :=
  filtered_df_all_permissive sampleDataset (by simp [sampleDataset])
    (by decide)

/-! ### Correlation engine (app.py lines 218-229, app2.py lines 296-307)

`corr_matrix = df[numeric_cols].corr()` computes the Pearson
product-moment coefficient `r = S_xy / sqrt(S_xx * S_yy)` for every pair of
the six numeric columns, where `S_xy` is the sum of products of deviations
from the column means; pandas yields IEEE NaN exactly when a column's
deviation sum of squares is zero (constant column, or fewer than 2 rows).
We model an entry as `none` for NaN, and otherwise keep the exact triple
`(S_xy, S_xx, S_yy)`, whose real value is `S_xy / sqrt(S_xx * S_yy)`.
The matrix is then handed directly to `px.imshow` with no transformation. -/

inductive Col where
  | thermoregulation
  | heartRateVariation
  | bloodOxygen
  | activityLevel
  | sleepPatterns
  | hormoneImbalance
deriving DecidableEq, Repr

def colVal : Col → HealthRecord → ℚ
  | .thermoregulation, r => r.thermoregulation
  | .heartRateVariation, r => r.heartRateVariation
  | .bloodOxygen, r => r.bloodOxygen
  | .activityLevel, r => r.activityLevel
  | .sleepPatterns, r => r.sleepPatterns
  | .hormoneImbalance, r => r.hormoneImbalance

def colVals (ds : Dataset) (c : Col) : List ℚ :=
  ds.map (colVal c)

def mean (l : List ℚ) : ℚ :=
  l.sum / l.length

/-- Sum of products of deviations from the means, `S_xy`. -/
def sxy (xs ys : List ℚ) : ℚ :=
  (List.zipWith (fun a b => (a - mean xs) * (b - mean ys)) xs ys).sum

def sxx (xs : List ℚ) : ℚ :=
  sxy xs xs

/-- One entry of pandas `.corr()`: `none` models the IEEE NaN produced when
either column has zero deviation sum of squares (zero variance, which
includes every column of a frame with fewer than 2 rows); otherwise the
triple `(S_xy, S_xx, S_yy)` determining `r = S_xy / sqrt(S_xx * S_yy)`. -/
def pearsonRep (xs ys : List ℚ) : Option (ℚ × ℚ × ℚ) :=
  if sxx xs = 0 ∨ sxx ys = 0 then none else some (sxy xs ys, sxx xs, sxx ys)

def corr_matrix (ds : Dataset) (a b : Col) : Option (ℚ × ℚ × ℚ) :=
  pearsonRep (colVals ds a) (colVals ds b)

/-- The real value of a defined Pearson triple. -/
noncomputable def pearsonValue (t : ℚ × ℚ × ℚ) : ℝ :=
  (t.1 : ℝ) / Real.sqrt ((t.2.1 : ℝ) * (t.2.2 : ℝ))

/-- The real-valued correlation entry (`none` = NaN). -/
noncomputable def corrValue (ds : Dataset) (a b : Col) : Option ℝ :=
  (corr_matrix ds a b).map pearsonValue

lemma sxy_comm (xs ys : List ℚ) : sxy xs ys = sxy ys xs := by
  unfold sxy
  rw [List.zipWith_comm]
  have h : (fun (b : ℚ) (a : ℚ) => (a - mean xs) * (b - mean ys))
      = fun (b : ℚ) (a : ℚ) => (b - mean ys) * (a - mean xs) := by
    funext b a
    ring
  rw [h]

lemma sxx_nonneg (xs : List ℚ) : 0 ≤ sxx xs := by
  unfold sxx sxy
  rw [List.zipWith_same]
  apply List.sum_nonneg
  intro x hx
  rcases List.mem_map.mp hx with ⟨a, _, rfl⟩
  exact mul_self_nonneg _

lemma mean_const (xs : List ℚ) (c : ℚ) (hne : xs ≠ []) (h : ∀ x ∈ xs, x = c) :
    mean xs = c := by
  unfold mean
  rw [List.sum_eq_card_nsmul xs c h, nsmul_eq_mul]
  have hlen : (xs.length : ℚ) ≠ 0 := by
    have hpos : 0 < xs.length := List.length_pos.mpr hne
    exact_mod_cast Nat.pos_iff_ne_zero.mp hpos
  field_simp

lemma sxx_eq_zero_of_pairwise_eq (xs : List ℚ) (h : ∀ x ∈ xs, ∀ y ∈ xs, x = y) :
    sxx xs = 0 := by
  cases hxs : xs with
  | nil => simp [sxx, sxy]
  | cons a l =>
      subst hxs
      have hc : ∀ x ∈ a :: l, x = a := fun x hx => h x hx a (List.mem_cons_self a l)
      unfold sxx sxy
      rw [List.zipWith_same]
      apply List.sum_eq_zero
      intro x hx
      rcases List.mem_map.mp hx with ⟨b, hb, rfl⟩
      rw [mean_const (a :: l) a (List.cons_ne_nil a l) hc, hc b hb]
      ring

lemma pairwise_eq_of_short (xs : List ℚ) (h : xs.length < 2) :
    ∀ x ∈ xs, ∀ y ∈ xs, x = y := by
  match xs with
  | [] => intro x hx; cases hx
  | [a] =>
      intro x hx y hy
      rw [List.mem_singleton.mp hx, List.mem_singleton.mp hy]
  | a :: b :: l =>
      exfalso
      simp only [List.length_cons] at h
      omega

/-- C4 (counterexample): a concrete 2-record Dataset whose Thermoregulation
column is constant (zero variance): the correlation matrix handed to the
heatmap holds NaN (`none`) at the (Thermoregulation, HeartRateVariation)
entry — no explicit sentinel replaces it — refuting the claim that the
engine reports zero-variance coefficients as an explicit undefined sentinel
rather than silently emitting NaN into consumer-facing output. -/
theorem corr_nan_counterexample :
    corr_matrix [⟨36, 80, 98, 1, 7, 0⟩, ⟨36, 90, 97, 2, 8, 1⟩]
      Col.thermoregulation Col.heartRateVariation = none := by
  norm_num [corr_matrix, pearsonRep, sxx, sxy, mean, colVals, colVal, List.zipWith]

/-- C4 (amended): when a column has zero variance (all its values identical)
every `df.corr()` entry in that column's row and column is NaN (`none`), and
with fewer than 2 records the whole matrix is NaN; these NaN entries are the
values handed to the heatmap, with no sentinel substituted. -/
theorem corr_zero_variance_nan (ds : Dataset) :
    (∀ c : Col, (∀ x ∈ colVals ds c, ∀ y ∈ colVals ds c, x = y) →
       ∀ b : Col, corr_matrix ds c b = none ∧ corr_matrix ds b c = none)
      ∧ (ds.length < 2 → ∀ a b : Col, corr_matrix ds a b = none) := by
  constructor
  · intro c hc b
    have hz : sxx (colVals ds c) = 0 := sxx_eq_zero_of_pairwise_eq _ hc
    constructor
    · unfold corr_matrix pearsonRep
      simp [hz]
    · unfold corr_matrix pearsonRep
      simp [hz]
  · intro hlen a b
    have hz : sxx (colVals ds a) = 0 := by
      apply sxx_eq_zero_of_pairwise_eq
      apply pairwise_eq_of_short
      simpa [colVals] using hlen
    unfold corr_matrix pearsonRep
    simp [hz]

/-- C4 witness: the amended theorem applied at the constant-temperature
2-record Dataset (first part) and at the empty Dataset (second part). -/
theorem corr_zero_variance_nan_witness :
    corr_matrix [⟨36, 80, 98, 1, 7, 0⟩, ⟨36, 90, 97, 2, 8, 1⟩]
        Col.thermoregulation Col.bloodOxygen = none
      ∧ corr_matrix [] Col.sleepPatterns Col.bloodOxygen = none :=
  ⟨((corr_zero_variance_nan _).1 Col.thermoregulation
      (by norm_num [colVals, colVal]) Col.bloodOxygen).1,
   (corr_zero_variance_nan []).2 (by norm_num) Col.sleepPatterns Col.bloodOxygen⟩

/-- C7: for a Dataset with at least 2 records the correlation matrix is
symmetric — the (A,B) and (B,A) entries are equal (as real values, with NaN
matching NaN) for every pair of the six numeric columns — and the diagonal
entry of every column with nonzero variance equals 1.0. -/
theorem corr_matrix_symm_diag (ds : Dataset) (hlen : 2 ≤ ds.length) :
    (∀ a b : Col, corrValue ds a b = corrValue ds b a)
      ∧ (∀ a : Col, sxx (colVals ds a) ≠ 0 → corrValue ds a a = some 1) := by
  constructor
  · intro a b
    unfold corrValue corr_matrix pearsonRep
    by_cases hz : sxx (colVals ds a) = 0 ∨ sxx (colVals ds b) = 0
    · simp [hz, Or.symm hz]
    · have hz2 : ¬ (sxx (colVals ds b) = 0 ∨ sxx (colVals ds a) = 0) := fun h => hz h.symm
      simp only [hz, hz2, if_false]
      have harg : pearsonValue (sxy (colVals ds a) (colVals ds b),
            sxx (colVals ds a), sxx (colVals ds b))
          = pearsonValue (sxy (colVals ds b) (colVals ds a),
            sxx (colVals ds b), sxx (colVals ds a)) := by
        unfold pearsonValue
        rw [sxy_comm (colVals ds a) (colVals ds b), mul_comm]
      simp [harg]
  · intro a hz
    unfold corrValue corr_matrix pearsonRep
    simp only [hz, or_self, if_false]
    have hval : pearsonValue (sxy (colVals ds a) (colVals ds a),
        sxx (colVals ds a), sxx (colVals ds a)) = 1 := by
      unfold pearsonValue sxx
      have hnn : (0:ℝ) ≤ ((sxy (colVals ds a) (colVals ds a) : ℚ) : ℝ) := by
        exact_mod_cast sxx_nonneg (colVals ds a)
      rw [Real.sqrt_mul_self hnn]
      have hne0 : ((sxy (colVals ds a) (colVals ds a) : ℚ) : ℝ) ≠ 0 := by
        exact_mod_cast hz
      field_simp
    simp [hval]

/-- C7 witness: the theorem applied at a concrete 2-record Dataset whose
Thermoregulation column has nonzero variance. -/
theorem corr_matrix_symm_diag_witness :
    corrValue [⟨36, 80, 98, 1, 7, 0⟩, ⟨37, 90, 97, 2, 8, 1⟩]
        Col.thermoregulation Col.heartRateVariation
      = corrValue [⟨36, 80, 98, 1, 7, 0⟩, ⟨37, 90, 97, 2, 8, 1⟩]
        Col.heartRateVariation Col.thermoregulation
      ∧ corrValue [⟨36, 80, 98, 1, 7, 0⟩, ⟨37, 90, 97, 2, 8, 1⟩]
        Col.thermoregulation Col.thermoregulation = some 1 :=
  ⟨(corr_matrix_symm_diag _ (by norm_num)).1 Col.thermoregulation Col.heartRateVariation,
   (corr_matrix_symm_diag _ (by norm_num)).2 Col.thermoregulation
     (by norm_num [colVals, colVal, sxx, sxy, mean, List.zipWith])⟩

/-! ### Ingestion (app.py lines 64-67 and the handler at lines 477-479)

`df = pd.read_csv(uploaded_file)` parses the uploaded table; it enforces
only tabular well-formedness (each data row as wide as the header) and does
no schema validation of column names.  A missing required column instead
raises `KeyError: '<name>'` at the first `df['<name>']` access during
rendering, which the enclosing `except Exception as e:
st.error(f"Error processing file: {str(e)}")` displays. -/

structure DataFrame where
  cols : List String
  rows : List (List ℚ)
deriving DecidableEq, Repr

def read_csv (header : List String) (rows : List (List ℚ)) : Except String DataFrame :=
  if rows.all (fun r => r.length = header.length) then Except.ok ⟨header, rows⟩
  else Except.error "ParserError"

/-- Column access `df[c]`: raises `KeyError: c` (the error value is the
column name) when the column is absent. -/
def getColumn (df : DataFrame) (c : String) : Except String (List ℚ) :=
  if c ∈ df.cols then Except.ok (df.rows.map (fun r => r.getD (df.cols.indexOf c) 0))
  else Except.error c

def requiredColumns : List String :=
  ["Thermoregulation", "HeartRateVariation", "BloodOxygen",
   "ActivityLevel", "SleepPatterns", "HormoneImbalance"]

/-- The dashboard's required-column accesses in order of first access
(app.py lines 91, 98, 105, 112, 130, 143). -/
def renderDashboard (df : DataFrame) : Except String Unit := do
  let _ ← getColumn df "Thermoregulation"
  let _ ← getColumn df "HeartRateVariation"
  let _ ← getColumn df "BloodOxygen"
  let _ ← getColumn df "SleepPatterns"
  let _ ← getColumn df "ActivityLevel"
  let _ ← getColumn df "HormoneImbalance"
  Except.ok ()

/-- The top-level `except Exception` handler of app.py lines 477-479. -/
def appOutput (df : DataFrame) : String :=
  match renderDashboard df with
  | Except.error e => "Error processing file: " ++ e
  | Except.ok _ => "rendered"

/-- C2 (counterexample): for a concrete well-formed table lacking the
required Thermoregulation column, ingestion (`pd.read_csv`) succeeds, so the
claim that ingestion fails with a SchemaError for every input missing a
required column is false: `read_csv` performs no schema validation. -/
theorem read_csv_no_schema_check :
    read_csv ["HeartRateVariation", "BloodOxygen", "ActivityLevel",
        "SleepPatterns", "HormoneImbalance"] [[80, 98, 1, 7, 0]]
      = Except.ok ⟨["HeartRateVariation", "BloodOxygen", "ActivityLevel",
        "SleepPatterns", "HormoneImbalance"], [[80, 98, 1, 7, 0]]⟩
      ∧ "Thermoregulation" ∈ requiredColumns
      ∧ "Thermoregulation" ∉ ["HeartRateVariation", "BloodOxygen", "ActivityLevel",
        "SleepPatterns", "HormoneImbalance"] := by
  refine ⟨rfl, ?_, ?_⟩ <;> simp [requiredColumns]

/-- C2 (amended): a missing required column does not fail ingestion; it is
raised as a KeyError naming a missing required column at the first access of
that column during rendering, and the top-level handler surfaces that name
to the user — the error is never silently swallowed or defaulted. -/
theorem missing_column_keyerror (df : DataFrame) (c : String)
    (hc : c ∈ requiredColumns) (hmiss : c ∉ df.cols) :
    ∃ e, renderDashboard df = Except.error e ∧ e ∈ requiredColumns ∧ e ∉ df.cols
      ∧ appOutput df = "Error processing file: " ++ e := by
  by_cases h1 : "Thermoregulation" ∈ df.cols
  case neg =>
    refine ⟨"Thermoregulation", ?_, by simp [requiredColumns], h1, ?_⟩ <;>
      simp [renderDashboard, appOutput, getColumn, Bind.bind, Except.bind, Except.instMonad, h1]
  case pos =>
  by_cases h2 : "HeartRateVariation" ∈ df.cols
  case neg =>
    refine ⟨"HeartRateVariation", ?_, by simp [requiredColumns], h2, ?_⟩ <;>
      simp [renderDashboard, appOutput, getColumn, Bind.bind, Except.bind, Except.instMonad, h1, h2]
  case pos =>
  by_cases h3 : "BloodOxygen" ∈ df.cols
  case neg =>
    refine ⟨"BloodOxygen", ?_, by simp [requiredColumns], h3, ?_⟩ <;>
      simp [renderDashboard, appOutput, getColumn, Bind.bind, Except.bind, Except.instMonad, h1, h2, h3]
  case pos =>
  by_cases h4 : "SleepPatterns" ∈ df.cols
  case neg =>
    refine ⟨"SleepPatterns", ?_, by simp [requiredColumns], h4, ?_⟩ <;>
      simp [renderDashboard, appOutput, getColumn, Bind.bind, Except.bind, Except.instMonad, h1, h2, h3, h4]
  case pos =>
  by_cases h5 : "ActivityLevel" ∈ df.cols
  case neg =>
    refine ⟨"ActivityLevel", ?_, by simp [requiredColumns], h5, ?_⟩ <;>
      simp [renderDashboard, appOutput, getColumn, Bind.bind, Except.bind, Except.instMonad, h1, h2, h3, h4, h5]
  case pos =>
  by_cases h6 : "HormoneImbalance" ∈ df.cols
  case neg =>
    refine ⟨"HormoneImbalance", ?_, by simp [requiredColumns], h6, ?_⟩ <;>
      simp [renderDashboard, appOutput, getColumn, Bind.bind, Except.bind, Except.instMonad, h1, h2, h3, h4, h5, h6]
  case pos =>
  exfalso
  simp [requiredColumns] at hc
  rcases hc with rfl | rfl | rfl | rfl | rfl | rfl <;> contradiction

/-- C2 witness: the amended theorem applied at a concrete one-column frame
missing Thermoregulation. -/
theorem missing_column_keyerror_witness :
    ∃ e, renderDashboard ⟨["HeartRateVariation"], [[80]]⟩ = Except.error e
      ∧ e ∈ requiredColumns ∧ e ∉ ["HeartRateVariation"]
      ∧ appOutput ⟨["HeartRateVariation"], [[80]]⟩ = "Error processing file: " ++ e :=
  missing_column_keyerror ⟨["HeartRateVariation"], [[80]]⟩ "Thermoregulation"
    (by simp [requiredColumns]) (by simp)

/-! ### Descriptive statistics (app.py lines 123-124)

`summary_stats = df.describe()` reports per column: count, mean, std, min,
the 25/50/75 percentiles, and max.  The percentile of fraction `q` over a
column of `n` values is computed (numpy's default linear interpolation) as
the value at rank `h = q * (n - 1)` of the sorted column, linearly
interpolated between the order statistics at `⌊h⌋` and `⌊h⌋ + 1`. -/

/-- Linear interpolation of a (sorted) list of values at fractional rank
`h`: numpy's `linear` interpolation between adjacent order statistics. -/
def interpAt (s : List ℚ) (h : ℚ) : ℚ :=
  if (⌊h⌋).toNat + 1 < s.length then
    s.getD (⌊h⌋).toNat 0
      + (h - ((⌊h⌋).toNat : ℚ)) * (s.getD ((⌊h⌋).toNat + 1) 0 - s.getD (⌊h⌋).toNat 0)
  else s.getD (⌊h⌋).toNat 0

/-- The column values in ascending order. -/
def sortedColumn (ds : Dataset) (c : Col) : List ℚ :=
  List.insertionSort (· ≤ ·) (colVals ds c)

/-- The `q`-percentile (`q` a fraction in `[0,1]`) reported by `describe()`. -/
def percentile (ds : Dataset) (c : Col) (q : ℚ) : ℚ :=
  interpAt (sortedColumn ds c) (q * (((colVals ds c).length : ℚ) - 1))

def describeMin (ds : Dataset) (c : Col) : ℚ :=
  colMin (colVals ds c)

def describeMax (ds : Dataset) (c : Col) : ℚ :=
  colMax (colVals ds c)

lemma floor_toNat_cast_le (h : ℚ) (hh0 : 0 ≤ h) : (((⌊h⌋).toNat : ℕ) : ℚ) ≤ h := by
  have hiz : (((⌊h⌋).toNat : ℕ) : ℤ) = ⌊h⌋ := Int.toNat_of_nonneg (Int.floor_nonneg.mpr hh0)
  have hfl : ((⌊h⌋ : ℤ) : ℚ) ≤ h := Int.floor_le h
  rw [← hiz] at hfl
  exact_mod_cast hfl

lemma lt_floor_toNat_cast_add_one (h : ℚ) (hh0 : 0 ≤ h) :
    h < (((⌊h⌋).toNat : ℕ) : ℚ) + 1 := by
  have hiz : (((⌊h⌋).toNat : ℕ) : ℤ) = ⌊h⌋ := Int.toNat_of_nonneg (Int.floor_nonneg.mpr hh0)
  have hfl : h < ((⌊h⌋ : ℤ) : ℚ) + 1 := Int.lt_floor_add_one h
  rw [← hiz] at hfl
  exact_mod_cast hfl

lemma floor_toNat_lt_length (n : ℕ) (h : ℚ) (hh0 : 0 ≤ h) (hh1 : h ≤ (n : ℚ) - 1)
    (hn : 0 < n) : (⌊h⌋).toNat < n := by
  have hfl : (0:ℤ) ≤ ⌊h⌋ := Int.floor_nonneg.mpr hh0
  have h1 : ((⌊h⌋ : ℤ) : ℚ) ≤ (n : ℚ) - 1 := le_trans (Int.floor_le h) hh1
  have h2 : ⌊h⌋ ≤ (n : ℤ) - 1 := by exact_mod_cast h1
  omega

lemma get_floor_le_interpAt (s : List ℚ) (hs : List.Sorted (· ≤ ·) s) (h : ℚ)
    (hh0 : 0 ≤ h) (hin : (⌊h⌋).toNat < s.length) :
    s.get ⟨(⌊h⌋).toNat, hin⟩ ≤ interpAt s h := by
  simp only [List.get_eq_getElem]
  unfold interpAt
  by_cases hbr : (⌊h⌋).toNat + 1 < s.length
  · rw [if_pos hbr, List.getD_eq_getElem s 0 hin, List.getD_eq_getElem s 0 hbr]
    have hf : 0 ≤ h - (((⌊h⌋).toNat : ℕ) : ℚ) := by
      have := floor_toNat_cast_le h hh0
      linarith
    have hd : s.get ⟨(⌊h⌋).toNat, hin⟩ ≤ s.get ⟨(⌊h⌋).toNat + 1, hbr⟩ :=
      hs.rel_get_of_lt (by exact Fin.mk_lt_mk.mpr (Nat.lt_succ_self _))
    simp only [List.get_eq_getElem] at hd
    nlinarith [mul_nonneg hf (sub_nonneg.mpr hd)]
  · rw [if_neg hbr, List.getD_eq_getElem s 0 hin]

lemma interpAt_le_get_succ (s : List ℚ) (hs : List.Sorted (· ≤ ·) s) (h : ℚ)
    (hh0 : 0 ≤ h) (hbr : (⌊h⌋).toNat + 1 < s.length) :
    interpAt s h ≤ s.get ⟨(⌊h⌋).toNat + 1, hbr⟩ := by
  have hin : (⌊h⌋).toNat < s.length := Nat.lt_of_succ_lt hbr
  simp only [List.get_eq_getElem]
  unfold interpAt
  rw [if_pos hbr, List.getD_eq_getElem s 0 hin, List.getD_eq_getElem s 0 hbr]
  have hf1 : h - (((⌊h⌋).toNat : ℕ) : ℚ) ≤ 1 := by
    have := lt_floor_toNat_cast_add_one h hh0
    linarith
  have hd : s.get ⟨(⌊h⌋).toNat, hin⟩ ≤ s.get ⟨(⌊h⌋).toNat + 1, hbr⟩ :=
    hs.rel_get_of_lt (by exact Fin.mk_lt_mk.mpr (Nat.lt_succ_self _))
  simp only [List.get_eq_getElem] at hd
  nlinarith [mul_le_mul_of_nonneg_right hf1 (sub_nonneg.mpr hd)]

lemma interpAt_between (s : List ℚ) (hs : List.Sorted (· ≤ ·) s) (h : ℚ)
    (hh0 : 0 ≤ h) (hh1 : h ≤ (s.length : ℚ) - 1) (hn : 0 < s.length) :
    (∃ i : Fin s.length, s.get i ≤ interpAt s h)
      ∧ (∃ j : Fin s.length, interpAt s h ≤ s.get j) := by
  have hin : (⌊h⌋).toNat < s.length := floor_toNat_lt_length s.length h hh0 hh1 hn
  refine ⟨⟨⟨(⌊h⌋).toNat, hin⟩, get_floor_le_interpAt s hs h hh0 hin⟩, ?_⟩
  by_cases hbr : (⌊h⌋).toNat + 1 < s.length
  · exact ⟨⟨(⌊h⌋).toNat + 1, hbr⟩, interpAt_le_get_succ s hs h hh0 hbr⟩
  · refine ⟨⟨(⌊h⌋).toNat, hin⟩, ?_⟩
    simp only [List.get_eq_getElem]
    unfold interpAt
    rw [if_neg hbr, List.getD_eq_getElem s 0 hin]

lemma interpAt_mono (s : List ℚ) (hs : List.Sorted (· ≤ ·) s) (h1 h2 : ℚ)
    (hh0 : 0 ≤ h1) (h12 : h1 ≤ h2) (hub : h2 ≤ (s.length : ℚ) - 1)
    (hn : 0 < s.length) : interpAt s h1 ≤ interpAt s h2 := by
  have hh20 : 0 ≤ h2 := le_trans hh0 h12
  have hin1 : (⌊h1⌋).toNat < s.length :=
    floor_toNat_lt_length s.length h1 hh0 (le_trans h12 hub) hn
  have hin2 : (⌊h2⌋).toNat < s.length := floor_toNat_lt_length s.length h2 hh20 hub hn
  have hi12 : (⌊h1⌋).toNat ≤ (⌊h2⌋).toNat := by
    have := Int.floor_le_floor h12
    omega
  by_cases hbr2 : (⌊h2⌋).toNat + 1 < s.length
  · rcases Nat.lt_or_ge (⌊h1⌋).toNat (⌊h2⌋).toNat with hlt | hge
    · have hbr1 : (⌊h1⌋).toNat + 1 < s.length := by omega
      have step1 : interpAt s h1 ≤ s.get ⟨(⌊h1⌋).toNat + 1, hbr1⟩ :=
        interpAt_le_get_succ s hs h1 hh0 hbr1
      have step2 : s.get ⟨(⌊h1⌋).toNat + 1, hbr1⟩ ≤ s.get ⟨(⌊h2⌋).toNat, hin2⟩ :=
        hs.rel_get_of_le (by exact Fin.mk_le_mk.mpr (by omega))
      have step3 : s.get ⟨(⌊h2⌋).toNat, hin2⟩ ≤ interpAt s h2 :=
        get_floor_le_interpAt s hs h2 hh20 hin2
      linarith
    · have heq : (⌊h1⌋).toNat = (⌊h2⌋).toNat := le_antisymm hi12 hge
      have hbr1 : (⌊h1⌋).toNat + 1 < s.length := by omega
      unfold interpAt
      rw [if_pos hbr1, if_pos hbr2, heq]
      have hd : s.getD (⌊h2⌋).toNat 0 ≤ s.getD ((⌊h2⌋).toNat + 1) 0 := by
        rw [List.getD_eq_getElem s 0 hin2, List.getD_eq_getElem s 0 hbr2]
        have hd0 : s.get ⟨(⌊h2⌋).toNat, hin2⟩ ≤ s.get ⟨(⌊h2⌋).toNat + 1, hbr2⟩ :=
          hs.rel_get_of_lt (by exact Fin.mk_lt_mk.mpr (Nat.lt_succ_self _))
        simpa only [List.get_eq_getElem] using hd0
      have hff : h1 - (((⌊h2⌋).toNat : ℕ) : ℚ) ≤ h2 - (((⌊h2⌋).toNat : ℕ) : ℚ) := by
        linarith
      nlinarith [mul_le_mul_of_nonneg_right hff (sub_nonneg.mpr hd)]
  · have hval2 : interpAt s h2 = s.get ⟨(⌊h2⌋).toNat, hin2⟩ := by
      simp only [List.get_eq_getElem]
      unfold interpAt
      rw [if_neg hbr2, List.getD_eq_getElem s 0 hin2]
    rcases Nat.lt_or_ge (⌊h1⌋).toNat (⌊h2⌋).toNat with hlt | hge
    · by_cases hbr1 : (⌊h1⌋).toNat + 1 < s.length
      · have step1 : interpAt s h1 ≤ s.get ⟨(⌊h1⌋).toNat + 1, hbr1⟩ :=
          interpAt_le_get_succ s hs h1 hh0 hbr1
        have step2 : s.get ⟨(⌊h1⌋).toNat + 1, hbr1⟩ ≤ s.get ⟨(⌊h2⌋).toNat, hin2⟩ :=
          hs.rel_get_of_le (by exact Fin.mk_le_mk.mpr (by omega))
        rw [hval2]
        linarith
      · have hval1 : interpAt s h1 = s.get ⟨(⌊h1⌋).toNat, hin1⟩ := by
          simp only [List.get_eq_getElem]
          unfold interpAt
          rw [if_neg hbr1, List.getD_eq_getElem s 0 hin1]
        rw [hval1, hval2]
        exact hs.rel_get_of_le (by exact Fin.mk_le_mk.mpr (by omega))
    · have heq : (⌊h1⌋).toNat = (⌊h2⌋).toNat := le_antisymm hi12 hge
      have hbr1 : ¬ ((⌊h1⌋).toNat + 1 < s.length) := by omega
      have hval1 : interpAt s h1 = s.get ⟨(⌊h1⌋).toNat, hin1⟩ := by
        simp only [List.get_eq_getElem]
        unfold interpAt
        rw [if_neg hbr1, List.getD_eq_getElem s 0 hin1]
      rw [hval1, hval2]
      exact hs.rel_get_of_le (by exact Fin.mk_le_mk.mpr (by omega))

/-- C8: for every non-empty Dataset and every column, the descriptive
statistics satisfy min ≤ p25 ≤ p50 ≤ p75 ≤ max, the percentiles being
computed by linear interpolation between order statistics. -/
theorem describe_percentiles_ordered (ds : Dataset) (hne : ds ≠ []) (c : Col) :
    describeMin ds c ≤ percentile ds c (25/100)
      ∧ percentile ds c (25/100) ≤ percentile ds c (50/100)
      ∧ percentile ds c (50/100) ≤ percentile ds c (75/100)
      ∧ percentile ds c (75/100) ≤ describeMax ds c := by
  have hs : List.Sorted (· ≤ ·) (sortedColumn ds c) := List.sorted_insertionSort _ _
  have hperm : List.Perm (sortedColumn ds c) (colVals ds c) := List.perm_insertionSort _ _
  have hlen : (sortedColumn ds c).length = (colVals ds c).length := hperm.length_eq
  have hlpos : 0 < (colVals ds c).length := by
    rw [colVals, List.length_map]
    exact List.length_pos.mpr hne
  have hspos : 0 < (sortedColumn ds c).length := by rw [hlen]; exact hlpos
  have hn1 : (1:ℚ) ≤ ((sortedColumn ds c).length : ℚ) := by exact_mod_cast hspos
  have hbase : (0:ℚ) ≤ ((sortedColumn ds c).length : ℚ) - 1 := by linarith
  have hplen : ((colVals ds c).length : ℚ) = ((sortedColumn ds c).length : ℚ) := by
    exact_mod_cast hlen.symm
  have hpq : ∀ q : ℚ, percentile ds c q
      = interpAt (sortedColumn ds c) (q * (((sortedColumn ds c).length : ℚ) - 1)) := by
    intro q
    rw [percentile, hplen]
  have hb : ∀ q : ℚ, 0 ≤ q → q ≤ 1 →
      0 ≤ q * (((sortedColumn ds c).length : ℚ) - 1)
        ∧ q * (((sortedColumn ds c).length : ℚ) - 1)
          ≤ ((sortedColumn ds c).length : ℚ) - 1 := by
    intro q h0 h1
    exact ⟨mul_nonneg h0 hbase, by nlinarith⟩
  refine ⟨?_, ?_, ?_, ?_⟩
  · rcases (interpAt_between _ hs _ (hb (25/100) (by norm_num) (by norm_num)).1
      (hb (25/100) (by norm_num) (by norm_num)).2 hspos).1 with ⟨i, hi⟩
    have hmem : (sortedColumn ds c).get i ∈ colVals ds c :=
      hperm.subset (List.get_mem _ i.1 i.2)
    have hmin := colMin_le_mem (colVals ds c) _ hmem
    rw [hpq, describeMin]
    exact le_trans hmin hi
  · rw [hpq, hpq]
    exact interpAt_mono _ hs _ _ (hb (25/100) (by norm_num) (by norm_num)).1
      (mul_le_mul_of_nonneg_right (by norm_num) hbase)
      (hb (50/100) (by norm_num) (by norm_num)).2 hspos
  · rw [hpq, hpq]
    exact interpAt_mono _ hs _ _ (hb (50/100) (by norm_num) (by norm_num)).1
      (mul_le_mul_of_nonneg_right (by norm_num) hbase)
      (hb (75/100) (by norm_num) (by norm_num)).2 hspos
  · rcases (interpAt_between _ hs _ (hb (75/100) (by norm_num) (by norm_num)).1
      (hb (75/100) (by norm_num) (by norm_num)).2 hspos).2 with ⟨j, hj⟩
    have hmem : (sortedColumn ds c).get j ∈ colVals ds c :=
      hperm.subset (List.get_mem _ j.1 j.2)
    have hmax := mem_le_colMax (colVals ds c) _ hmem
    rw [hpq, describeMax]
    exact le_trans hj hmax

/-- C8 witness: the theorem applied at the spec's sample Dataset and the
Thermoregulation column. -/
theorem describe_percentiles_ordered_witness :
    describeMin sampleDataset Col.thermoregulation
        ≤ percentile sampleDataset Col.thermoregulation (25/100)
      ∧ percentile sampleDataset Col.thermoregulation (25/100)
        ≤ percentile sampleDataset Col.thermoregulation (50/100)
      ∧ percentile sampleDataset Col.thermoregulation (50/100)
        ≤ percentile sampleDataset Col.thermoregulation (75/100)
      ∧ percentile sampleDataset Col.thermoregulation (75/100)
        ≤ describeMax sampleDataset Col.thermoregulation :=
  describe_percentiles_ordered sampleDataset (by simp [sampleDataset]) Col.thermoregulation
